import Mathlib

/-!
Verification of the spec of oblogout-py3 (src/oblogout/dbushandler.py),
a DBus glue layer between a logout UI and two power-management backends
(legacy HAL and ConsoleKit/UPower).

The module is shallowly embedded: every remote interaction of the
controller goes through an oracle `Env` describing the external world
(the DBus services), and each controller method is translated into a
function that returns its Python result together with the ordered trace
of remote calls it issued (`List Call`).  The PolicyKit status oracle
`polkitStatus id k` gives the string returned by the k-th
`IsProcessAuthorized` query for action `id` within one operation, so
that the status may change between the pre-check and the re-check that
follows `ObtainAuthorization` (the whole point of the double-check).

The class-level lazy-handle caching pattern of the source
(`if not hasattr (DbusController, "__sysbus"): DbusController.__sysbus = ...`)
is modelled separately and exactly, including Python name mangling:
an attribute expression `DbusController.__sysbus` occurring textually
inside the class body compiles to the attribute name
`_DbusController__sysbus`, while the string literal `"__sysbus"` passed
to `hasattr` is not mangled.
-/

namespace Oblogout

/-- One remote call issued by the controller: PolicyKit authorization
queries and requests, ConsoleKit session enumeration, and the
power-management methods of the HAL, ConsoleKit and UPower endpoints. -/
inductive Call where
  | isProcessAuthorized (id : String)
  | obtainAuthorization (id : String)
  | getSeats
  | seatGetSessions (sid : String)
  | halReboot
  | halShutdown
  | halSuspend
  | halHibernate
  | ckRestart
  | ckStop
  | upSuspend
  | upHibernate
  deriving DecidableEq

/-- Oracle for the external DBus world.  `polkitStatus id k` is the
string answered by the k-th `IsProcessAuthorized` query for `id` inside
one operation; `obtainGrant` is the (discarded) return value of
`ObtainAuthorization`; `seats` and `seatSessions` drive
`ConsoleKit.GetSeats` and per-seat `GetSessions`; the `Can*` fields are
the capability flags; the `*Res` fields are the return values of the
remote power methods; `resolveOk bus path` tells whether
`get_object bus path` succeeds or raises `dbus.DBusException`. -/
structure Env where
  polkitStatus : String → Nat → String
  obtainGrant : String → Bool
  seats : List String
  seatSessions : String → List String
  halCanSuspend : Bool
  halCanHibernate : Bool
  upCanSuspend : Bool
  upCanHibernate : Bool
  halRebootRes : Bool
  halShutdownRes : Bool
  halSuspendRes : Bool
  halHibernateRes : Bool
  ckRestartRes : Bool
  ckStopRes : Bool
  upSuspendRes : Bool
  upHibernateRes : Bool
  resolveOk : String → String → Bool

/-- Action identifier used by `suspend`. -/
def suspendId : String := "org.freedesktop.hal.power-management.suspend"

/-- Action identifier used by `hibernate`. -/
def hibernateId : String := "org.freedesktop.hal.power-management.hibernate"

/-- Single-session action identifier used by `restart`. -/
def rebootId : String := "org.freedesktop.hal.power-management.reboot"

/-- Multi-session action identifier used by `restart`. -/
def rebootMultiId : String := "org.freedesktop.hal.power-management.reboot-multiple-sessions"

/-- Single-session action identifier used by `shutdown`. -/
def shutdownId : String := "org.freedesktop.hal.power-management.shutdown"

/-- Multi-session action identifier used by `shutdown`. -/
def shutdownMultiId : String := "org.freedesktop.hal.power-management.shutdown-multiple-sessions"

/-- `DbusController.__check_perms`: query
`PolicyKit.IsProcessAuthorized(id, pid, False)` and return `True` iff
the answer is the string `"yes"`; any other string yields `False`.
`k` is the index of this query within the enclosing operation. -/
def check_perms (env : Env) (k : Nat) (id : String) : Bool :=
  if env.polkitStatus id k = "yes" then true else false

/-- `DbusController.__auth_perms`: if `__check_perms` grants, return
`True`; otherwise call `AuthenticationAgent.ObtainAuthorization`
(binding its result to `grant`, which is only logged, never used) and
return the result of a second `__check_perms` query. -/
def auth_perms (env : Env) (id : String) : Bool × List Call :=
  if check_perms env 0 id then
    (true, [Call.isProcessAuthorized id])
  else
    let _grant := env.obtainGrant id
    (check_perms env 1 id,
      [Call.isProcessAuthorized id, Call.obtainAuthorization id, Call.isProcessAuthorized id])

/-- `DbusController.__get_sessions`: call `ConsoleKit.GetSeats`, then
for each seat sum the length of its `GetSessions` list. -/
def get_sessions (env : Env) : Nat × List Call :=
  ((env.seats.map (fun sid => (env.seatSessions sid).length)).sum,
    Call.getSeats :: env.seats.map Call.seatGetSessions)

/-- `SystemBus.get_object (bus, path)`: succeeds iff the endpoint
resolves; on failure it raises `dbus.DBusException`, modelled as the
error case. -/
def get_object (env : Env) (bus path : String) : Except Unit Unit :=
  if env.resolveOk bus path then Except.ok () else Except.error ()

/-- `DbusController.check`: probe the endpoints required by the
selected backend, converting `dbus.DBusException` (the only exception
`get_object` signals) into `False` via the `try/except` blocks; any
other backend value falls through to `return False`.  The function is
total, which embeds that `check` never propagates an exception. -/
def check (env : Env) (backend : Option String) : Bool :=
  if backend = some "HAL" then
    match get_object env "org.freedesktop.Hal" "/org/freedesktop/Hal/devices/computer" with
    | Except.ok _ => true
    | Except.error _ => false
  else if backend = some "ConsoleKit" then
    match get_object env "org.freedesktop.ConsoleKit" "/org/freedesktop/ConsoleKit/Manager" with
    | Except.ok _ =>
      match get_object env "org.freedesktop.UPower" "/org/freedesktop/UPower" with
      | Except.ok _ => true
      | Except.error _ => false
    | Except.error _ => false
  else
    false

/-- `DbusController.check_ability`: per-backend capability flags for
`suspend` and `hibernate`; for `safesuspend` return `False` when either
flag is off, otherwise fall through; every unmatched case falls through
to the final `return True`. -/
def check_ability (env : Env) (backend : Option String) (action : String) : Bool :=
  if backend = some "HAL" then
    if action = "suspend" then
      env.halCanSuspend
    else if action = "hibernate" then
      env.halCanHibernate
    else if action = "safesuspend" then
      if !env.halCanHibernate || !env.halCanSuspend then false else true
    else
      true
  else if backend = some "ConsoleKit" then
    if action = "suspend" then
      env.upCanSuspend
    else if action = "hibernate" then
      env.upCanHibernate
    else if action = "safesuspend" then
      if !env.upCanHibernate || !env.upCanSuspend then false else true
    else
      true
  else
    true

/-- `DbusController.restart`: on the HAL backend compute the session
count, gate on `__auth_perms` with the multi-session identifier when
the count exceeds one and the single identifier otherwise, and only
then call `HAL.Reboot`; on ConsoleKit call `ConsoleKit.Restart`
directly; otherwise return `False`. -/
def restart (env : Env) (backend : Option String) : Bool × List Call :=
  if backend = some "HAL" then
    let s := get_sessions env
    if s.1 > 1 then
      let a := auth_perms env rebootMultiId
      if !a.1 then (false, s.2 ++ a.2)
      else (env.halRebootRes, s.2 ++ a.2 ++ [Call.halReboot])
    else
      let a := auth_perms env rebootId
      if !a.1 then (false, s.2 ++ a.2)
      else (env.halRebootRes, s.2 ++ a.2 ++ [Call.halReboot])
  else if backend = some "ConsoleKit" then
    (env.ckRestartRes, [Call.ckRestart])
  else
    (false, [])

/-- `DbusController.shutdown`: same shape as `restart`, with the
shutdown identifiers, `HAL.Shutdown` and `ConsoleKit.Stop`. -/
def shutdown (env : Env) (backend : Option String) : Bool × List Call :=
  if backend = some "HAL" then
    let s := get_sessions env
    if s.1 > 1 then
      let a := auth_perms env shutdownMultiId
      if !a.1 then (false, s.2 ++ a.2)
      else (env.halShutdownRes, s.2 ++ a.2 ++ [Call.halShutdown])
    else
      let a := auth_perms env shutdownId
      if !a.1 then (false, s.2 ++ a.2)
      else (env.halShutdownRes, s.2 ++ a.2 ++ [Call.halShutdown])
  else if backend = some "ConsoleKit" then
    (env.ckStopRes, [Call.ckStop])
  else
    (false, [])

/-- `DbusController.suspend`: on HAL gate on `__auth_perms` for the
suspend identifier then call `HAL.Suspend`; on ConsoleKit call
`UPower.Suspend` directly; otherwise return `False`. -/
def suspend (env : Env) (backend : Option String) : Bool × List Call :=
  if backend = some "HAL" then
    let a := auth_perms env suspendId
    if !a.1 then (false, a.2)
    else (env.halSuspendRes, a.2 ++ [Call.halSuspend])
  else if backend = some "ConsoleKit" then
    (env.upSuspendRes, [Call.upSuspend])
  else
    (false, [])

/-- `DbusController.hibernate`: on HAL gate on `__auth_perms` for the
hibernate identifier then call `HAL.Hibernate`; on ConsoleKit call
`UPower.Hibernate` directly; otherwise return `False`. -/
def hibernate (env : Env) (backend : Option String) : Bool × List Call :=
  if backend = some "HAL" then
    let a := auth_perms env hibernateId
    if !a.1 then (false, a.2)
    else (env.halHibernateRes, a.2 ++ [Call.halHibernate])
  else if backend = some "ConsoleKit" then
    (env.upHibernateRes, [Call.upHibernate])
  else
    (false, [])

/-- `DbusController.safesuspend`: the body is `pass`, so the call
issues nothing and returns the Python value `None`, embedded as
`(none, [])` — `none` standing for `None`, which is not a boolean. -/
def safesuspend (_env : Env) (_backend : Option String) : Option Bool × List Call :=
  (none, [])

/-- The identifiers queried via `IsProcessAuthorized` in a trace, in
order. -/
def authQueryIds (t : List Call) : List String :=
  t.filterMap fun c =>
    match c with
    | Call.isProcessAuthorized id => some id
    | _ => none

/-- Class-level attribute dictionary of `DbusController`, together with
a counter of `dbus.SystemBus ()` constructions; each construction
yields the fresh handle `nextHandle`. -/
structure ClsAttrs where
  attrs : List (String × Nat)
  nextHandle : Nat
  deriving DecidableEq

/-- Python `hasattr (DbusController, name)`. -/
def hasattrCls (c : ClsAttrs) (name : String) : Bool :=
  (c.attrs.lookup name).isSome

/-- Python attribute read, `None`-free: `some` iff the attribute is
set. -/
def getattrCls (c : ClsAttrs) (name : String) : Option Nat :=
  c.attrs.lookup name

/-- Python attribute assignment on the class. -/
def setattrCls (c : ClsAttrs) (name : String) (v : Nat) : ClsAttrs :=
  { c with attrs := (name, v) :: c.attrs }

/-- The `_sysbus` property getter, embedded with Python name-mangling
semantics: the guard is `hasattr (DbusController, "__sysbus")` on the
literal, unmangled string, while both the assignment
`DbusController.__sysbus = dbus.SystemBus ()` and the final
`return DbusController.__sysbus` refer to the mangled attribute
`_DbusController__sysbus` because they occur textually inside the
class body.  Returns the handle (`none` would be an `AttributeError`)
and the updated class state. -/
def sysbusGet (c : ClsAttrs) : Option Nat × ClsAttrs :=
  if hasattrCls c "__sysbus" then
    (getattrCls c "_DbusController__sysbus", c)
  else
    let h := c.nextHandle
    let c1 := setattrCls { c with nextHandle := c.nextHandle + 1 } "_DbusController__sysbus" h
    (getattrCls c1 "_DbusController__sysbus", c1)

/-- Fresh-process class state: no attributes set, no constructions. -/
def cls0 : ClsAttrs := { attrs := [], nextHandle := 0 }

/-- A concrete world in which PolicyKit always answers `"no"`: two
seats with one session each, every capability on, every remote call
succeeding. -/
def envNo : Env :=
  { polkitStatus := fun _ _ => "no"
  , obtainGrant := fun _ => true
  , seats := ["Seat1", "Seat2"]
  , seatSessions := fun _ => ["SessionA"]
  , halCanSuspend := true
  , halCanHibernate := true
  , upCanSuspend := true
  , upCanHibernate := true
  , halRebootRes := true
  , halShutdownRes := true
  , halSuspendRes := true
  , halHibernateRes := true
  , ckRestartRes := true
  , ckStopRes := true
  , upSuspendRes := true
  , upHibernateRes := true
  , resolveOk := fun _ _ => true }

/-- A concrete world in which PolicyKit always answers `"yes"`. -/
def envYes : Env :=
  { envNo with polkitStatus := fun _ _ => "yes" }

/-- A concrete world in which the pre-check answers `"no"` and the
re-check after `ObtainAuthorization` answers `"yes"`. -/
def envLate : Env :=
  { envNo with polkitStatus := fun _ k => if k = 0 then "no" else "yes" }

lemma auth_perms_trace (env : Env) (id : String) :
    (auth_perms env id).2 = [Call.isProcessAuthorized id]
    ∨ (auth_perms env id).2 =
        [Call.isProcessAuthorized id, Call.obtainAuthorization id,
          Call.isProcessAuthorized id] := by
  unfold auth_perms
  split
  · exact Or.inl rfl
  · exact Or.inr rfl

lemma auth_perms_fail (env : Env) (id : String)
    (h0 : env.polkitStatus id 0 ≠ "yes") (h1 : env.polkitStatus id 1 ≠ "yes") :
    (auth_perms env id).1 = false := by
  unfold auth_perms check_perms
  simp [h0, h1]

/-- Claim C1: on the HAL backend, when the authorization pre-check for
an identifier does not answer `"yes"`, the authorization step issues an
`ObtainAuthorization` request and its result is `true` iff the second
status query answers exactly `"yes"` — independently of the value the
request itself returned, and with every non-`"yes"` string treated as
denial. -/
theorem auth_double_check (env : Env) (id : String)
    (h : env.polkitStatus id 0 ≠ "yes") :
    ((auth_perms env id).1 = true ↔ env.polkitStatus id 1 = "yes")
    ∧ Call.obtainAuthorization id ∈ (auth_perms env id).2
    ∧ ∀ g : String → Bool,
        auth_perms { env with obtainGrant := g } id = auth_perms env id := by
  unfold auth_perms check_perms
  simp [h]

/-- Witness for `auth_double_check` at the concrete world `envLate`. -/
theorem auth_double_check_witness :
    envLate.polkitStatus rebootId 0 ≠ "yes"
    ∧ ((auth_perms envLate rebootId).1 = true ↔ envLate.polkitStatus rebootId 1 = "yes")
    ∧ Call.obtainAuthorization rebootId ∈ (auth_perms envLate rebootId).2 :=
  ⟨by decide, (auth_double_check envLate rebootId (by decide)).1,
    (auth_double_check envLate rebootId (by decide)).2.1⟩

/-- Claim C2: if the initial authorization status query answers
`"yes"`, the authorization step returns `true` with the trace of that
single query, so no `ObtainAuthorization` request is ever issued. -/
theorem auth_short_circuit (env : Env) (id : String)
    (h : env.polkitStatus id 0 = "yes") :
    (auth_perms env id).1 = true
    ∧ (auth_perms env id).2 = [Call.isProcessAuthorized id]
    ∧ Call.obtainAuthorization id ∉ (auth_perms env id).2 := by
  unfold auth_perms check_perms
  simp [h]

/-- Witness for `auth_short_circuit` at the concrete world `envYes`. -/
theorem auth_short_circuit_witness :
    (auth_perms envYes rebootId).1 = true
    ∧ (auth_perms envYes rebootId).2 = [Call.isProcessAuthorized rebootId]
    ∧ Call.obtainAuthorization rebootId ∉ (auth_perms envYes rebootId).2 :=
  auth_short_circuit envYes rebootId (by decide)

lemma authQueryIds_append (s t : List Call) :
    authQueryIds (s ++ t) = authQueryIds s ++ authQueryIds t := by
  simp [authQueryIds]

lemma authQueryIds_sessions (env : Env) :
    authQueryIds (get_sessions env).2 = [] := by
  simp [authQueryIds, get_sessions, List.filterMap_cons, List.filterMap_map,
    Function.comp]

lemma authQueryIds_auth_perms (env : Env) (id : String) :
    authQueryIds (auth_perms env id).2 =
      List.replicate (authQueryIds (auth_perms env id).2).length id := by
  rcases auth_perms_trace env id with h | h <;> rw [h] <;> rfl

lemma authQueryIds_auth_perms_ne (env : Env) (id : String) :
    authQueryIds (auth_perms env id).2 ≠ [] := by
  rcases auth_perms_trace env id with h | h <;> rw [h] <;> simp [authQueryIds]

lemma sessions_trace_head (env : Env) (l : List Call) :
    ((get_sessions env).2 ++ l).head? = some Call.getSeats := by
  simp [get_sessions]

lemma gate_spec (env : Env) (id : String) (rest extra : List Call)
    (hrest : rest = (auth_perms env id).2 ++ extra)
    (hextra : authQueryIds extra = []) :
    ((get_sessions env).2 ++ rest).head? = some Call.getSeats
    ∧ authQueryIds ((get_sessions env).2 ++ rest) =
        List.replicate (authQueryIds ((get_sessions env).2 ++ rest)).length id
    ∧ authQueryIds ((get_sessions env).2 ++ rest) ≠ [] := by
  subst hrest
  have hids : authQueryIds ((get_sessions env).2 ++ ((auth_perms env id).2 ++ extra)) =
      authQueryIds (auth_perms env id).2 := by
    simp [authQueryIds_append, authQueryIds_sessions, hextra]
  refine ⟨sessions_trace_head env _, ?_, ?_⟩ <;> rw [hids]
  · exact authQueryIds_auth_perms env id
  · exact authQueryIds_auth_perms_ne env id

/-- Claim C3: on the HAL backend, `restart` and `shutdown` compute the
session count first (their trace starts with `GetSeats`); every
authorization status query they issue uses the multi-session
identifier when the session count exceeds one, and the single-session
identifier when it is one or zero — and at least one such query is
issued. -/
theorem restart_shutdown_select_id (env : Env) :
    ((restart env (some "HAL")).2.head? = some Call.getSeats
      ∧ authQueryIds (restart env (some "HAL")).2 =
          List.replicate (authQueryIds (restart env (some "HAL")).2).length
            (if (get_sessions env).1 > 1 then rebootMultiId else rebootId)
      ∧ authQueryIds (restart env (some "HAL")).2 ≠ [])
    ∧ ((shutdown env (some "HAL")).2.head? = some Call.getSeats
      ∧ authQueryIds (shutdown env (some "HAL")).2 =
          List.replicate (authQueryIds (shutdown env (some "HAL")).2).length
            (if (get_sessions env).1 > 1 then shutdownMultiId else shutdownId)
      ∧ authQueryIds (shutdown env (some "HAL")).2 ≠ []) := by
  constructor
  · simp only [restart, eq_self_iff_true, if_true]
    by_cases hs : (get_sessions env).1 > 1
    · simp only [if_pos hs]
      split
      · exact gate_spec env rebootMultiId _ [] (by simp) rfl
      · rw [List.append_assoc]
        exact gate_spec env rebootMultiId _ [Call.halReboot] rfl rfl
    · simp only [if_neg hs]
      split
      · exact gate_spec env rebootId _ [] (by simp) rfl
      · rw [List.append_assoc]
        exact gate_spec env rebootId _ [Call.halReboot] rfl rfl
  · simp only [shutdown, eq_self_iff_true, if_true]
    by_cases hs : (get_sessions env).1 > 1
    · simp only [if_pos hs]
      split
      · exact gate_spec env shutdownMultiId _ [] (by simp) rfl
      · rw [List.append_assoc]
        exact gate_spec env shutdownMultiId _ [Call.halShutdown] rfl rfl
    · simp only [if_neg hs]
      split
      · exact gate_spec env shutdownId _ [] (by simp) rfl
      · rw [List.append_assoc]
        exact gate_spec env shutdownId _ [Call.halShutdown] rfl rfl

lemma halReboot_notin (env : Env) (id : String) :
    Call.halReboot ∉ (get_sessions env).2 ++ (auth_perms env id).2 := by
  rcases auth_perms_trace env id with ht | ht <;> rw [ht] <;> simp [get_sessions]

lemma halShutdown_notin (env : Env) (id : String) :
    Call.halShutdown ∉ (get_sessions env).2 ++ (auth_perms env id).2 := by
  rcases auth_perms_trace env id with ht | ht <;> rw [ht] <;> simp [get_sessions]

lemma halSuspend_notin (env : Env) (id : String) :
    Call.halSuspend ∉ (auth_perms env id).2 := by
  rcases auth_perms_trace env id with ht | ht <;> rw [ht] <;> simp

lemma halHibernate_notin (env : Env) (id : String) :
    Call.halHibernate ∉ (auth_perms env id).2 := by
  rcases auth_perms_trace env id with ht | ht <;> rw [ht] <;> simp

lemma gated_pair (env : Env) (id : String) (res : Bool) (rc : Call)
    (pre : List Call) (p : Bool × List Call)
    (hp : p = if !(auth_perms env id).1
              then (false, pre ++ (auth_perms env id).2)
              else (res, pre ++ (auth_perms env id).2 ++ [rc]))
    (hnot : rc ∉ pre ++ (auth_perms env id).2) :
    (env.polkitStatus id 0 ≠ "yes" → env.polkitStatus id 1 ≠ "yes" →
      p.1 = false ∧ rc ∉ p.2)
    ∧ (rc ∈ p.2 → (auth_perms env id).1 = true) := by
  subst hp
  rcases Bool.eq_false_or_eq_true (auth_perms env id).1 with ha | ha
  · rw [if_neg (show ¬(!(auth_perms env id).1) = true by simp [ha])]
    refine ⟨fun h0 h1 => ?_, fun _ => ha⟩
    have hf := auth_perms_fail env id h0 h1
    rw [ha] at hf
    exact Bool.noConfusion hf
  · rw [if_pos (show (!(auth_perms env id).1) = true by simp [ha])]
    exact ⟨fun _ _ => ⟨rfl, hnot⟩, fun hmem => absurd hmem hnot⟩

/-- Witness for `restart_shutdown_select_id` at the concrete world
`envNo`, which has two seats with one session each. -/
theorem restart_shutdown_select_id_witness :
    ((restart envNo (some "HAL")).2.head? = some Call.getSeats
      ∧ authQueryIds (restart envNo (some "HAL")).2 =
          List.replicate (authQueryIds (restart envNo (some "HAL")).2).length
            (if (get_sessions envNo).1 > 1 then rebootMultiId else rebootId)
      ∧ authQueryIds (restart envNo (some "HAL")).2 ≠ [])
    ∧ ((shutdown envNo (some "HAL")).2.head? = some Call.getSeats
      ∧ authQueryIds (shutdown envNo (some "HAL")).2 =
          List.replicate (authQueryIds (shutdown envNo (some "HAL")).2).length
            (if (get_sessions envNo).1 > 1 then shutdownMultiId else shutdownId)
      ∧ authQueryIds (shutdown envNo (some "HAL")).2 ≠ []) :=
  restart_shutdown_select_id envNo

/-- Claim C4: on the HAL backend, when the selected action identifier
is denied both before and after the authorization request, `restart`,
`shutdown`, `suspend` and `hibernate` return `false` and never invoke
the remote power method; conversely the remote method appears in the
trace only when the authorization step succeeded. -/
theorem hal_actions_gated (env : Env) :
    ((env.polkitStatus (if (get_sessions env).1 > 1 then rebootMultiId else rebootId) 0 ≠ "yes" →
      env.polkitStatus (if (get_sessions env).1 > 1 then rebootMultiId else rebootId) 1 ≠ "yes" →
      (restart env (some "HAL")).1 = false
        ∧ Call.halReboot ∉ (restart env (some "HAL")).2)
    ∧ (Call.halReboot ∈ (restart env (some "HAL")).2 →
        (auth_perms env (if (get_sessions env).1 > 1 then rebootMultiId else rebootId)).1 = true))
    ∧ ((env.polkitStatus (if (get_sessions env).1 > 1 then shutdownMultiId else shutdownId) 0 ≠ "yes" →
      env.polkitStatus (if (get_sessions env).1 > 1 then shutdownMultiId else shutdownId) 1 ≠ "yes" →
      (shutdown env (some "HAL")).1 = false
        ∧ Call.halShutdown ∉ (shutdown env (some "HAL")).2)
    ∧ (Call.halShutdown ∈ (shutdown env (some "HAL")).2 →
        (auth_perms env (if (get_sessions env).1 > 1 then shutdownMultiId else shutdownId)).1 = true))
    ∧ ((env.polkitStatus suspendId 0 ≠ "yes" → env.polkitStatus suspendId 1 ≠ "yes" →
      (suspend env (some "HAL")).1 = false
        ∧ Call.halSuspend ∉ (suspend env (some "HAL")).2)
    ∧ (Call.halSuspend ∈ (suspend env (some "HAL")).2 →
        (auth_perms env suspendId).1 = true))
    ∧ ((env.polkitStatus hibernateId 0 ≠ "yes" → env.polkitStatus hibernateId 1 ≠ "yes" →
      (hibernate env (some "HAL")).1 = false
        ∧ Call.halHibernate ∉ (hibernate env (some "HAL")).2)
    ∧ (Call.halHibernate ∈ (hibernate env (some "HAL")).2 →
        (auth_perms env hibernateId).1 = true)) := by
  refine ⟨?_, ?_, ?_, ?_⟩
  · simp only [restart, eq_self_iff_true, if_true]
    by_cases hs : (get_sessions env).1 > 1
    · simp only [if_pos hs]
      exact gated_pair env rebootMultiId env.halRebootRes Call.halReboot _ _ rfl
        (halReboot_notin env _)
    · simp only [if_neg hs]
      exact gated_pair env rebootId env.halRebootRes Call.halReboot _ _ rfl
        (halReboot_notin env _)
  · simp only [shutdown, eq_self_iff_true, if_true]
    by_cases hs : (get_sessions env).1 > 1
    · simp only [if_pos hs]
      exact gated_pair env shutdownMultiId env.halShutdownRes Call.halShutdown _ _ rfl
        (halShutdown_notin env _)
    · simp only [if_neg hs]
      exact gated_pair env shutdownId env.halShutdownRes Call.halShutdown _ _ rfl
        (halShutdown_notin env _)
  · simp only [suspend, eq_self_iff_true, if_true]
    exact gated_pair env suspendId env.halSuspendRes Call.halSuspend [] _ rfl
      (halSuspend_notin env _)
  · simp only [hibernate, eq_self_iff_true, if_true]
    exact gated_pair env hibernateId env.halHibernateRes Call.halHibernate [] _ rfl
      (halHibernate_notin env _)

/-- Witness for `hal_actions_gated` at the concrete world `envNo`,
where every authorization query is denied. -/
theorem hal_actions_gated_witness :
    ((restart envNo (some "HAL")).1 = false
      ∧ Call.halReboot ∉ (restart envNo (some "HAL")).2)
    ∧ ((shutdown envNo (some "HAL")).1 = false
      ∧ Call.halShutdown ∉ (shutdown envNo (some "HAL")).2)
    ∧ ((suspend envNo (some "HAL")).1 = false
      ∧ Call.halSuspend ∉ (suspend envNo (some "HAL")).2)
    ∧ ((hibernate envNo (some "HAL")).1 = false
      ∧ Call.halHibernate ∉ (hibernate envNo (some "HAL")).2) := by
  have h := hal_actions_gated envNo
  exact ⟨h.1.1 (by decide) (by decide), h.2.1.1 (by decide) (by decide),
    h.2.2.1.1 (by decide) (by decide), h.2.2.2.1 (by decide) (by decide)⟩

/-- Claim C5: `check` is total — the `dbus.DBusException` raised by a
failing endpoint probe is the only exception `get_object` signals and
the `try/except` converts it to `False`, so nothing propagates to the
caller — and for each backend with required endpoints it returns
`true` exactly when resolution of every required endpoint succeeds. -/
theorem check_matches_resolution (env : Env) :
    (check env (some "HAL") = true ↔
      env.resolveOk "org.freedesktop.Hal" "/org/freedesktop/Hal/devices/computer" = true)
    ∧ (check env (some "ConsoleKit") = true ↔
      (env.resolveOk "org.freedesktop.ConsoleKit" "/org/freedesktop/ConsoleKit/Manager" = true
        ∧ env.resolveOk "org.freedesktop.UPower" "/org/freedesktop/UPower" = true)) := by
  constructor
  · cases h : env.resolveOk "org.freedesktop.Hal" "/org/freedesktop/Hal/devices/computer" <;>
      simp [check, get_object, h]
  · cases h1 : env.resolveOk "org.freedesktop.ConsoleKit" "/org/freedesktop/ConsoleKit/Manager" <;>
      cases h2 : env.resolveOk "org.freedesktop.UPower" "/org/freedesktop/UPower" <;>
      simp [check, get_object, h1, h2]

/-- Claim C6: on both backends, `check_ability` grants `safesuspend`
exactly when it grants both `suspend` and `hibernate`; `safesuspend`
reads no capability flag of its own, only the two existing ones. -/
theorem safesuspend_derived (env : Env) :
    (check_ability env (some "HAL") "safesuspend" = true ↔
      (check_ability env (some "HAL") "suspend" = true
        ∧ check_ability env (some "HAL") "hibernate" = true))
    ∧ (check_ability env (some "ConsoleKit") "safesuspend" = true ↔
      (check_ability env (some "ConsoleKit") "suspend" = true
        ∧ check_ability env (some "ConsoleKit") "hibernate" = true)) := by
  constructor
  · cases h1 : env.halCanSuspend <;> cases h2 : env.halCanHibernate <;>
      simp [check_ability, h1, h2]
  · cases h1 : env.upCanSuspend <;> cases h2 : env.upCanHibernate <;>
      simp [check_ability, h1, h2]

/-- Claim C7: on the ConsoleKit backend, `restart` and `shutdown`
issue exactly one remote call — `ConsoleKit.Restart` respectively
`ConsoleKit.Stop` — with no session count and no authorization query,
and pass the remote return value through unchanged. -/
theorem consolekit_direct (env : Env) :
    restart env (some "ConsoleKit") = (env.ckRestartRes, [Call.ckRestart])
    ∧ shutdown env (some "ConsoleKit") = (env.ckStopRes, [Call.ckStop]) := by
  constructor <;> simp [restart, shutdown]

/-- Claim C8 is violated by the code: Python name mangling makes the
guard `hasattr (DbusController, "__sysbus")` test an attribute name
that the assignment `DbusController.__sysbus = dbus.SystemBus ()`
(mangled to `_DbusController__sysbus`) never sets, so the guard never
fires.  At the failing input — a fresh process performing two
consecutive `_sysbus` accesses — a second `SystemBus` is constructed
(two constructions in total) and a different handle is returned,
contradicting construct-at-most-once reuse. -/
theorem sysbus_recreated_each_access :
    (sysbusGet cls0).1 = some 0
    ∧ (sysbusGet (sysbusGet cls0).2).1 = some 1
    ∧ (sysbusGet (sysbusGet cls0).2).2.nextHandle = 2
    ∧ (sysbusGet cls0).1 ≠ (sysbusGet (sysbusGet cls0).2).1 := by
  refine ⟨rfl, rfl, rfl, ?_⟩
  decide

/-- Counterexample to claim C9: at a concrete world and backend,
`safesuspend` does not return a boolean — its body is `pass`, so the
Python result is `None`, embedded as `none`, whose `isSome` is
`false`. -/
theorem safesuspend_returns_no_bool :
    ((safesuspend envNo (some "HAL")).1).isSome = false := rfl

/-- Claim C9 as amended: for every backend, `safesuspend` is a no-op —
it issues no remote call and applies no authorization gate — and
returns `None` rather than a boolean. -/
theorem safesuspend_noop (env : Env) (backend : Option String) :
    safesuspend env backend = (none, []) := rfl

/-- Claim C10: for any backend value other than `some "HAL"` and
`some "ConsoleKit"` (including `none`), `check_ability` answers `true`
by fall-through for every action, even though `check` answers `false`
and `restart`, `shutdown`, `suspend` and `hibernate` all return
`false` with an empty call trace; likewise, under either recognized
backend, any action name outside suspend/hibernate/safesuspend falls
through to `true`. -/
theorem unknown_fallthrough (env : Env) (b : Option String) (a : String) :
    (b ≠ some "HAL" → b ≠ some "ConsoleKit" →
      check_ability env b a = true
      ∧ check env b = false
      ∧ restart env b = (false, [])
      ∧ shutdown env b = (false, [])
      ∧ suspend env b = (false, [])
      ∧ hibernate env b = (false, []))
    ∧ (a ≠ "suspend" → a ≠ "hibernate" → a ≠ "safesuspend" →
      check_ability env (some "HAL") a = true
      ∧ check_ability env (some "ConsoleKit") a = true) := by
  constructor
  · intro h1 h2
    refine ⟨?_, ?_, ?_, ?_, ?_, ?_⟩ <;>
      simp [check_ability, check, restart, shutdown, suspend, hibernate, h1, h2]
  · intro h1 h2 h3
    constructor <;> simp [check_ability, h1, h2, h3]

/-- Witness for `unknown_fallthrough` at backend `none` and the action
name `"restart"`. -/
theorem unknown_fallthrough_witness :
    (check_ability envNo none "restart" = true
      ∧ check envNo none = false
      ∧ restart envNo none = (false, [])
      ∧ shutdown envNo none = (false, [])
      ∧ suspend envNo none = (false, [])
      ∧ hibernate envNo none = (false, []))
    ∧ (check_ability envNo (some "HAL") "restart" = true
      ∧ check_ability envNo (some "ConsoleKit") "restart" = true) :=
  ⟨(unknown_fallthrough envNo none "restart").1 (by decide) (by decide),
    (unknown_fallthrough envNo none "restart").2 (by decide) (by decide) (by decide)⟩

end Oblogout
